import Mathlib

/-!
# Verification of `movie_search.py` (semantic movie-plot search)

Shallow embedding of `src/Assignment01/movie_search.py`.

Modelling conventions:
* A pandas DataFrame row is a `RawRow` with optional `title`/`plot` cells
  (`none` models a NaN/null cell).
* A CSV source is `Option Table`: `none` models a missing file, and a `Table`
  records which of the required columns are present together with its rows.
* Machine floats are modelled by exact rationals `ℚ`; the cosine-similarity
  kernel (the sklearn `cosine_similarity`) is abstracted in the ranking pipeline
  as an arbitrary score function `sim`, and its zero-norm guard semantics are
  modelled separately (`cosine_similarity` below) over the reals.
* The SentenceTransformer encoder is an external deterministic provider,
  modelled as `enc : String → Option (List ℚ)` (`none` models an encoding
  failure); a batch call `model.encode(texts)` is `encodeBatch enc texts`,
  which bakes in the provider contract that the output has the same length
  and order as the input.
* Python exceptions are the `PyErr` inductive, one constructor per `raise`
  site; `pyClass` maps each to the Python exception class actually raised,
  and `msgOf` to the literal message string.
* `numpy.ndarray.argsort` and `DataFrame.sort_values` are both called with
  the default kind (quicksort), which the libraries document as NOT stable:
  for equal values the relative order is unspecified. Their documented
  contract is `IsArgsortOf`: some permutation of the positions that sorts
  the values, any tie order. Properties of the ranking that hold for every
  such permutation (result length, descending similarity) are proved
  against that contract; the executable `search_movies` additionally fixes
  `argsort`, one concrete refinement (stable, ties by ascending index), so
  that witnesses can run, and no tie-order conclusion is drawn from that
  choice.
* Python mutation of `self` is explicit state passing: each method returns
  the updated `SearchState` together with `Option PyErr` (build) or an
  `Except` result (search); a raised exception returns the state as mutated
  up to the raise point, matching Python semantics.
-/

/-- A Python value passed as `top_n`. the Python `bool` is a subclass of `int`,
so `isinstance(top_n, int)` is `True` for booleans; floats are not ints.
Other Python types would likewise fail `isinstance` and are not modelled. -/
inductive PyVal where
  | pyInt (n : Int)
  | pyBool (b : Bool)
  | pyFloat (q : ℚ)
deriving DecidableEq, Repr

/-- `isinstance(v, int)` for the modelled Python values. -/
def isInstInt : PyVal → Bool
  | .pyInt _ => true
  | .pyBool _ => true
  | .pyFloat _ => false

/-- The integer value of a Python int/bool (`True == 1`, `False == 0`);
unused for floats, which never reach an integer context here. -/
def pyToInt : PyVal → Int
  | .pyInt n => n
  | .pyBool b => bif b then 1 else 0
  | .pyFloat _ => 0

/-- One exception per `raise` site of `movie_search.py`. -/
inductive PyErr where
  | fileNotFound
  | missingColumns (missing : List String)
  | emptyCorpus
  | modelLoad
  | embeddingFail
  | invalidQuery
  | invalidTopN
  | notLoaded
  | queryEncodeFail
deriving DecidableEq, Repr

/-- The Python exception classes used by `movie_search.py`. -/
inductive PyClass where
  | valueError
  | runtimeError
  | fileNotFoundError
deriving DecidableEq, Repr

/-- The Python exception class raised at each site (lines 58, 66, 72, 43,
82, 101, 104, 107, 113 of `movie_search.py`). -/
def pyClass : PyErr → PyClass
  | .fileNotFound => .fileNotFoundError
  | .missingColumns _ => .valueError
  | .emptyCorpus => .valueError
  | .modelLoad => .runtimeError
  | .embeddingFail => .runtimeError
  | .invalidQuery => .valueError
  | .invalidTopN => .valueError
  | .notLoaded => .valueError
  | .queryEncodeFail => .runtimeError

/-- The literal message of each `raise` (dynamic parts elided). -/
def msgOf : PyErr → String
  | .fileNotFound => "Movies CSV file not found at path: "
  | .missingColumns _ => "Missing required columns in CSV: "
  | .emptyCorpus => "No valid movie plots available after cleaning."
  | .modelLoad => "Error loading model "
  | .embeddingFail => "Error computing embeddings: "
  | .invalidQuery => "Query must be a non-empty string."
  | .invalidTopN => "top_n must be a positive integer."
  | .notLoaded => "Movies data and embeddings are not loaded. Call load_movies() first."
  | .queryEncodeFail => "Failed to encode query: "

/-- A row of the movies DataFrame; `none` is a NaN/null cell. -/
structure RawRow where
  title : Option String
  plot : Option String
deriving DecidableEq, Repr, Inhabited

/-- A parsed CSV table: which required columns are present, and its rows. -/
structure Table where
  hasTitle : Bool
  hasPlot : Bool
  rows : List RawRow
deriving DecidableEq, Repr

/-- The mutable fields of a `MovieSearcher` instance. -/
structure SearchState where
  model : Option Unit
  df_movies : Option (List RawRow)
  plot_embeddings : Option (List (List ℚ))
deriving DecidableEq, Repr

/-- The fresh `MovieSearcher()` state (`__init__`). -/
def initState : SearchState := ⟨none, none, none⟩

/-- `required_cols - set(df.columns)` for `required_cols = {title, plot}`. -/
def missingCols (t : Table) : List String :=
  (if t.hasTitle then [] else ["title"]) ++ (if t.hasPlot then [] else ["plot"])

/-- the Python `s.strip() == ''`: every character of `s` is whitespace. -/
def strippedEmpty (s : String) : Bool := s.data.all (·.isWhitespace)

/-- A batch call `self.model.encode(texts)` of the external
SentenceTransformer provider, built from the deterministic per-text encoder
`enc`: it succeeds exactly when every text encodes, returning the vectors
in the order of the input texts (the provider interface contract), and
any failure fails the whole batch. -/
def encodeBatch (enc : String → Option (List ℚ)) :
    List String → Option (List (List ℚ))
  | [] => some []
  | t :: ts =>
    match enc t, encodeBatch enc ts with
    | some v, some vs => some (v :: vs)
    | _, _ => none

/-- Lines 69-70: `dropna(subset=[plot, title])` then keep rows whose
stripped plot is non-empty. -/
def clean (rows : List RawRow) : List RawRow :=
  (rows.filter fun r => r.title.isSome && r.plot.isSome).filter
    fun r => !strippedEmpty (r.plot.getD "")

/-- `MovieSearcher.load_movies` (lines 45-82). `src = none` models a missing
file; `modelLoadOk` models whether `SentenceTransformer(model_name)`
succeeds; `enc` is the deterministic per-text encoder, `none` modelling an
encoding failure. Returns the state as mutated up to any raise, plus the
raised exception if any. -/
def load_movies (st : SearchState) (src : Option Table)
    (modelLoadOk : Bool) (enc : String → Option (List ℚ)) :
    SearchState × Option PyErr :=
  match src with
  | none => (st, some .fileNotFound)
  | some t =>
    -- line 60: `self.df_movies = pd.read_csv(filepath)` happens before any
    -- validation, so the raw frame is stored even if a later step raises.
    let st1 : SearchState := { st with df_movies := some t.rows }
    if ¬ (t.hasTitle ∧ t.hasPlot) then
      (st1, some (.missingColumns (missingCols t)))
    else
      let cleaned := clean t.rows
      let st2 : SearchState := { st1 with df_movies := some cleaned }
      if cleaned = [] then (st2, some .emptyCorpus)
      else
        match st2.model with
        | some m =>
          match encodeBatch enc (cleaned.map fun r => r.plot.getD "") with
          | none => ({ st2 with model := some m }, some .embeddingFail)
          | some embs =>
            ({ st2 with model := some m, plot_embeddings := some embs }, none)
        | none =>
          if modelLoadOk then
            let st3 : SearchState := { st2 with model := some () }
            match encodeBatch enc (cleaned.map fun r => r.plot.getD "") with
            | none => (st3, some .embeddingFail)
            | some embs => ({ st3 with plot_embeddings := some embs }, none)
          else (st2, some .modelLoad)

/-- The stable-argsort comparison on positions of `xs`: order by value,
ties by ascending position. -/
def idxLe (xs : List ℚ) (i j : ℕ) : Prop :=
  xs.getD i 0 < xs.getD j 0 ∨ (xs.getD i 0 = xs.getD j 0 ∧ i ≤ j)

instance (xs : List ℚ) : DecidableRel (idxLe xs) := fun _ _ =>
  inferInstanceAs (Decidable (_ ∨ _))

/-- One concrete refinement of `numpy.ndarray.argsort` (line 122): the
indices `0, ..., xs.length - 1` sorted by value with ties by ascending
index. The library uses the default unstable quicksort, so this particular
tie order is NOT a library guarantee; it is fixed here only to make the
embedding executable. Every theorem about tie order is stated against the
documented contract `IsArgsortOf` instead, of which this is one instance
(`argsort_isArgsortOf`). -/
def argsort (xs : List ℚ) : List ℕ :=
  (List.range xs.length).insertionSort (idxLe xs)

/-- Line 122: `similarities.argsort()[::-1][:top_n]`. -/
def topIdx (xs : List ℚ) (n : ℕ) : List ℕ :=
  (argsort xs).reverse.take n

/-- `DataFrame.sort_values(by, ascending=False)` (line 129), following
the pandas `nargsort`: ascending argsort of the key column, then reversal
of the resulting indexer. The pandas call uses the default unstable
quicksort, so the tie order of the indexer is unspecified; this definition
plugs in the concrete `argsort` refinement only so the embedding runs, and
tie-order conclusions are drawn solely from the `IsArgsortOf` contract
(see `searchResultsWith`). -/
def sort_values_desc {α : Type} [Inhabited α] (key : α → ℚ) (rs : List α) :
    List α :=
  ((argsort (rs.map key)).reverse).map fun k => rs.getD k default

/-- One row of the returned DataFrame: the positional corpus index it was
taken from (`df.iloc` position) plus the `title`, `plot`, `similarity`
columns. -/
structure ScoredResult where
  pos : ℕ
  title : String
  plot : String
  similarity : ℚ
deriving DecidableEq, Repr, Inhabited

/-- The contract the numpy documentation gives for `ndarray.argsort` with
the default kind (quicksort, not stable): the result is some permutation of
the positions of `xs` along which the values are non-decreasing. For equal
values the relative order is unspecified, so any permutation satisfying
this predicate is a legitimate return value of the library call. -/
def IsArgsortOf (xs : List ℚ) (p : List ℕ) : Prop :=
  p.Perm (List.range xs.length) ∧
  p.Pairwise fun i j => xs.getD i 0 ≤ xs.getD j 0

instance (xs : List ℚ) (p : List ℕ) : Decidable (IsArgsortOf xs p) :=
  inferInstanceAs (Decidable (_ ∧ _))

/-- The result rows of lines 121-134 with the two library-chosen sorting
permutations made explicit: `p1` is what `similarities.argsort()` returned
(line 122) and `p2` what the argsort inside
`sort_values(ascending=False)` returned for the similarity column of the
intermediate frame (line 129, the pandas `nargsort` reverses it). The
execution of `search_movies` on a built index realizes this with
`p1 := argsort sims` and `p2` the argsort of the selected column
(`rankedResults_eq_searchResultsWith`); an unstable library sort may
realize it with any `p1`, `p2` satisfying `IsArgsortOf`. -/
def searchResultsWith (rows : List RawRow) (sims : List ℚ) (n : ℕ)
    (p1 p2 : List ℕ) : List ScoredResult :=
  (p2.reverse.map fun k =>
    ((p1.reverse.take n).map fun i =>
      (i, rows.getD i default, sims.getD i 0)).getD k default).map
    fun t => ⟨t.1, t.2.1.title.getD "", t.2.1.plot.getD "", t.2.2⟩

/-- `MovieSearcher.search_movies` (lines 84-134). `sim` abstracts the
float-valued row scores produced by the sklearn `cosine_similarity`
(line 117) as a function of the query embedding and one corpus embedding;
`enc` is the query encoder. The returned state models the final value of
`self`: no statement of the method assigns to `self`, which the definition
makes explicit by threading `st` unchanged through every branch. -/
def search_movies (sim : List ℚ → List ℚ → ℚ) (enc : String → Option (List ℚ))
    (st : SearchState) (query : String) (top_n : PyVal) :
    SearchState × Except PyErr (List ScoredResult) :=
  -- line 100: `if not isinstance(query, str) or query.strip() == ''`
  if strippedEmpty query then (st, .error .invalidQuery)
  -- line 103: `if not isinstance(top_n, int) or top_n <= 0`
  else if ¬ isInstInt top_n ∨ pyToInt top_n ≤ 0 then (st, .error .invalidTopN)
  else
    -- line 106: `if self.df_movies is None or self.plot_embeddings is None`
    match st.df_movies, st.plot_embeddings with
    | some rows, some embs =>
      match enc query with
      | none => (st, .error .queryEncodeFail)
      | some qv =>
        let sims := embs.map (sim qv)
        let tis := topIdx sims (pyToInt top_n).toNat
        let results := tis.map fun i => (i, rows.getD i default, sims.getD i 0)
        let final := sort_values_desc (fun t => t.2.2) results
        (st, .ok (final.map fun t =>
          ⟨t.1, t.2.1.title.getD "", t.2.1.plot.getD "", t.2.2⟩))
    | _, _ => (st, .error .notLoaded)

/-- Dot product of two embedding vectors. -/
def dot (a b : List ℚ) : ℚ := (List.zipWith (· * ·) a b).sum

/-- Squared Euclidean magnitude of an embedding vector. -/
def normSq (a : List ℚ) : ℚ := dot a a

/-- Euclidean magnitude of an embedding vector. -/
noncomputable def euclNorm (a : List ℚ) : ℝ := Real.sqrt ((normSq a : ℚ) : ℝ)

/-- The denominator factor used by the sklearn `cosine_similarity`
(`sklearn.preprocessing.normalize` replaces a zero row norm by `1` before
dividing), which the code calls at line 117. -/
noncomputable def normOr1 (a : List ℚ) : ℝ :=
  if normSq a = 0 then 1 else euclNorm a

/-- `sklearn.metrics.pairwise.cosine_similarity` between a query embedding
and one corpus embedding, as called at line 117: both vectors are
L2-normalized with zero norms replaced by `1`, then dotted. -/
noncomputable def cosine_similarity (q v : List ℚ) : ℝ :=
  ((dot q v : ℚ) : ℝ) / (normOr1 q * normOr1 v)

/-! ## Properties of the sorting pipeline -/

instance (xs : List ℚ) : IsTotal ℕ (idxLe xs) where
  total i j := by
    rcases lt_trichotomy (xs.getD i 0) (xs.getD j 0) with h | h | h
    · exact Or.inl (Or.inl h)
    · rcases Nat.le_total i j with hij | hij
      · exact Or.inl (Or.inr ⟨h, hij⟩)
      · exact Or.inr (Or.inr ⟨h.symm, hij⟩)
    · exact Or.inr (Or.inl h)

instance (xs : List ℚ) : IsTrans ℕ (idxLe xs) where
  trans i j k hij hjk := by
    rcases hij with h1 | ⟨e1, l1⟩ <;> rcases hjk with h2 | ⟨e2, l2⟩
    · exact Or.inl (h1.trans h2)
    · exact Or.inl (by rw [← e2]; exact h1)
    · exact Or.inl (by rw [e1]; exact h2)
    · exact Or.inr ⟨e1.trans e2, l1.trans l2⟩

theorem argsort_perm (xs : List ℚ) : (argsort xs).Perm (List.range xs.length) :=
  List.perm_insertionSort _ _

theorem argsort_length (xs : List ℚ) : (argsort xs).length = xs.length := by
  simpa using (argsort_perm xs).length_eq

theorem argsort_sorted (xs : List ℚ) :
    (argsort xs).Pairwise (idxLe xs) :=
  List.sorted_insertionSort (idxLe xs) _

/-- The concrete refinement `argsort` satisfies the documented library
contract: it is one of the permutations an unstable `ndarray.argsort` may
return. -/
theorem argsort_isArgsortOf (xs : List ℚ) : IsArgsortOf xs (argsort xs) := by
  refine ⟨argsort_perm xs, (argsort_sorted xs).imp ?_⟩
  rintro i j (h | ⟨h, -⟩)
  · exact le_of_lt h
  · exact le_of_eq h

theorem topIdx_length (xs : List ℚ) (n : ℕ) :
    (topIdx xs n).length = min n xs.length := by
  simp [topIdx, argsort_length]

theorem sort_values_desc_length {α : Type} [Inhabited α] (key : α → ℚ)
    (rs : List α) : (sort_values_desc key rs).length = rs.length := by
  simp [sort_values_desc, argsort_length]

/-! ## The success path of `search_movies` -/

/-- The result rows returned on the success path of `search_movies`, as a
function of the query embedding, the stored corpus and matrix, and the
effective integer value `k` of `top_n`. -/
def rankedResults (sim : List ℚ → List ℚ → ℚ) (qv : List ℚ)
    (rows : List RawRow) (embs : List (List ℚ)) (k : ℕ) : List ScoredResult :=
  (sort_values_desc (fun t => t.2.2)
    ((topIdx (embs.map (sim qv)) k).map fun i =>
      (i, rows.getD i default, (embs.map (sim qv)).getD i 0))).map fun t =>
    ⟨t.1, t.2.1.title.getD "", t.2.1.plot.getD "", t.2.2⟩

theorem search_movies_ok (sim : List ℚ → List ℚ → ℚ)
    (enc : String → Option (List ℚ)) (st : SearchState)
    (rows : List RawRow) (embs : List (List ℚ)) (qv : List ℚ)
    (query : String) (n : ℕ)
    (hdf : st.df_movies = some rows) (hpe : st.plot_embeddings = some embs)
    (hq : strippedEmpty query = false) (henc : enc query = some qv)
    (hn : 0 < n) :
    search_movies sim enc st query (.pyInt (n : ℤ)) =
      (st, .ok (rankedResults sim qv rows embs n)) := by
  have h2 : ¬ (¬ isInstInt (PyVal.pyInt (n : ℤ)) = true ∨
      pyToInt (PyVal.pyInt (n : ℤ)) ≤ 0) := by
    rintro (h | h)
    · exact h rfl
    · simp only [pyToInt] at h
      omega
  unfold search_movies
  rw [if_neg (show ¬ strippedEmpty query = true by simp [hq]), if_neg h2,
    hdf, hpe, henc]
  rfl

theorem rankedResults_length (sim : List ℚ → List ℚ → ℚ) (qv : List ℚ)
    (rows : List RawRow) (embs : List (List ℚ)) (k : ℕ) :
    (rankedResults sim qv rows embs k).length = min k embs.length := by
  simp [rankedResults, sort_values_desc_length, topIdx_length]

/-- The deterministic execution of the ranking pipeline is one instance of
the nondeterministic model: it realizes `searchResultsWith` with the
concrete `argsort` refinement chosen for both library sort calls. -/
theorem rankedResults_eq_searchResultsWith (sim : List ℚ → List ℚ → ℚ)
    (qv : List ℚ) (rows : List RawRow) (embs : List (List ℚ)) (k : ℕ) :
    rankedResults sim qv rows embs k =
      searchResultsWith rows (embs.map (sim qv)) k
        (argsort (embs.map (sim qv)))
        (argsort ((topIdx (embs.map (sim qv)) k).map fun i =>
          (embs.map (sim qv)).getD i 0)) := by
  unfold rankedResults searchResultsWith sort_values_desc topIdx
  rw [show List.map (fun t : ℕ × RawRow × ℚ => t.2.2)
      (List.map (fun i => (i, rows.getD i default, (List.map (sim qv) embs).getD i 0))
        (List.take k (argsort (List.map (sim qv) embs)).reverse)) =
      List.map (fun i => (List.map (sim qv) embs).getD i 0)
        (List.take k (argsort (List.map (sim qv) embs)).reverse) from by
    rw [List.map_map]
    rfl]

/-! ## Properties of the build path -/

theorem encodeBatch_length {enc : String → Option (List ℚ)} :
    ∀ {ts : List String} {vs : List (List ℚ)},
      encodeBatch enc ts = some vs → vs.length = ts.length := by
  intro ts
  induction ts with
  | nil => intro vs h; simp only [encodeBatch] at h; cases h; rfl
  | cons t ts ih =>
    intro vs h
    simp only [encodeBatch] at h
    cases he : enc t with
    | none => rw [he] at h; simp at h
    | some v =>
      cases hb : encodeBatch enc ts with
      | none => rw [he, hb] at h; simp at h
      | some vs' =>
        rw [he, hb] at h
        cases h
        simp [ih hb]

theorem encodeBatch_getElem {enc : String → Option (List ℚ)} :
    ∀ {ts : List String} {vs : List (List ℚ)},
      encodeBatch enc ts = some vs →
      ∀ i (hi : i < ts.length) (hi' : i < vs.length), enc ts[i] = some vs[i] := by
  intro ts
  induction ts with
  | nil => intro vs _ i hi; exact absurd hi (by simp)
  | cons t ts ih =>
    intro vs h i hi hi'
    simp only [encodeBatch] at h
    cases he : enc t with
    | none => rw [he] at h; simp at h
    | some v =>
      cases hb : encodeBatch enc ts with
      | none => rw [he, hb] at h; simp at h
      | some vs' =>
        rw [he, hb] at h
        cases h
        cases i with
        | zero => simpa using he
        | succ j =>
          exact ih hb j (Nat.lt_of_succ_lt_succ hi) (Nat.lt_of_succ_lt_succ hi')

/-- Shape of a successful `load_movies`: the source was reachable with both
required columns, the stored corpus is the cleaned rows, and the stored
matrix is the batch encoding of their plots. -/
theorem load_movies_ok (st : SearchState) (src : Option Table) (mo : Bool)
    (enc : String → Option (List ℚ)) (st' : SearchState)
    (h : load_movies st src mo enc = (st', none)) :
    ∃ t embs, src = some t ∧
      st'.df_movies = some (clean t.rows) ∧
      st'.plot_embeddings = some embs ∧
      encodeBatch enc ((clean t.rows).map fun r => r.plot.getD "") = some embs := by
  cases src with
  | none => simp [load_movies, Prod.ext_iff] at h
  | some t =>
    by_cases hcols : (t.hasTitle = true ∧ t.hasPlot = true)
    · simp only [load_movies] at h
      rw [if_neg (not_not_intro hcols)] at h
      by_cases hemp : clean t.rows = []
      · rw [if_pos hemp] at h
        simp [Prod.ext_iff] at h
      · rw [if_neg hemp] at h
        cases hm : st.model with
        | some m =>
          rw [hm] at h
          cases hb : encodeBatch enc ((clean t.rows).map fun r => r.plot.getD "") with
          | none => rw [hb] at h; simp [Prod.ext_iff] at h
          | some embs =>
            rw [hb] at h
            have h1 : (⟨some m, some (clean t.rows), some embs⟩ : SearchState) = st' :=
              congrArg Prod.fst h
            exact ⟨t, embs, rfl, by rw [← h1], by rw [← h1], hb⟩
        | none =>
          rw [hm] at h
          by_cases hmo : mo = true
          · rw [if_pos hmo] at h
            cases hb : encodeBatch enc ((clean t.rows).map fun r => r.plot.getD "") with
            | none => rw [hb] at h; simp [Prod.ext_iff] at h
            | some embs =>
              rw [hb] at h
              have h1 : (⟨some (), some (clean t.rows), some embs⟩ : SearchState) = st' :=
                congrArg Prod.fst h
              exact ⟨t, embs, rfl, by rw [← h1], by rw [← h1], hb⟩
          · rw [if_neg hmo] at h
            simp [Prod.ext_iff] at h
    · simp only [load_movies] at h
      rw [if_pos hcols] at h
      simp [Prod.ext_iff] at h

/-! ## Properties of the cosine-similarity kernel -/

theorem normSq_nonneg (a : List ℚ) : 0 ≤ normSq a := by
  unfold normSq dot
  induction a with
  | nil => simp
  | cons x xs ih =>
    simp only [List.zipWith_cons_cons, List.sum_cons]
    exact add_nonneg (mul_self_nonneg x) ih

theorem euclNorm_eq_zero_iff (a : List ℚ) : euclNorm a = 0 ↔ normSq a = 0 := by
  unfold euclNorm
  rw [Real.sqrt_eq_zero (by exact_mod_cast normSq_nonneg a)]
  exact_mod_cast Iff.rfl

theorem normOr1_ne_zero (a : List ℚ) : normOr1 a ≠ 0 := by
  unfold normOr1
  split
  · exact one_ne_zero
  · next h =>
    have hpos : (0 : ℝ) < ((normSq a : ℚ) : ℝ) := by
      have := lt_of_le_of_ne (normSq_nonneg a) (Ne.symm h)
      exact_mod_cast this
    exact ne_of_gt (Real.sqrt_pos.mpr hpos)

theorem dot_comm (a b : List ℚ) : dot a b = dot b a := by
  unfold dot
  induction a generalizing b with
  | nil => cases b <;> simp
  | cons x xs ih =>
    cases b with
    | nil => simp
    | cons y ys => simp [mul_comm, ih]

theorem dot_eq_zero_of_normSq_eq_zero {a : List ℚ} (h : normSq a = 0) :
    ∀ b, dot a b = 0 := by
  unfold normSq dot at *
  induction a with
  | nil => intro b; cases b <;> simp
  | cons x xs ih =>
    have hx : x = 0 ∧ (List.zipWith (· * ·) xs xs).sum = 0 := by
      simp only [List.zipWith_cons_cons, List.sum_cons] at h
      have hxs : 0 ≤ (List.zipWith (· * ·) xs xs).sum := by
        have := normSq_nonneg xs
        unfold normSq dot at this
        exact this
      constructor
      · nlinarith [mul_self_nonneg x]
      · nlinarith [mul_self_nonneg x]
    intro b
    cases b with
    | nil => simp
    | cons y ys =>
      simp only [List.zipWith_cons_cons, List.sum_cons, hx.1, zero_mul, zero_add]
      exact ih hx.2 ys

/-! ## Concrete fixtures used by witnesses and counterexamples -/

/-- A wellformed two-row source (both required columns, both rows valid). -/
def goodTable : Table :=
  ⟨true, true, [⟨some "Spy Movie", some "agent"⟩, ⟨some "Romance", some "lovers"⟩]⟩

/-- A source that lacks the `plot` column. -/
def badTable : Table := ⟨true, false, [⟨some "Spy Movie", none⟩]⟩

/-- A source whose rows are all dropped by cleaning: a null title and a
whitespace-only plot. -/
def blankTable : Table := ⟨true, true, [⟨none, some "x"⟩, ⟨some "T", some " "⟩]⟩

/-- A deterministic encoder that embeds every text as `[1]`. -/
def encConst : String → Option (List ℚ) := fun _ => some [1]

/-- A concrete similarity kernel for witnesses: the dot product. -/
def simDot : List ℚ → List ℚ → ℚ := dot

/-- A searcher state holding the two-row corpus of `goodTable` with an
aligned two-vector embedding matrix. -/
def builtState : SearchState := ⟨some (), some goodTable.rows, some [[1], [1]]⟩

/-! ## The claims -/

/-- C1 counterexample: both sorting steps use the default unstable
quicksort, so for a similarity row with a tie the library may legitimately
return either order of the tied positions. With the tied row `[0, 0]`,
`p1 = [0, 1]` and `p2 = [1, 0]` both satisfy the documented argsort
contract, yet the resulting output lists the tied records in descending
corpus position `[1, 0]`, falsifying the claimed ascending tie order. -/
theorem c1_ties_counterexample :
    IsArgsortOf [0, 0] [0, 1] ∧
    IsArgsortOf [0, 0] [1, 0] ∧
    (searchResultsWith goodTable.rows [0, 0] 2 [0, 1] [1, 0]).map
      ScoredResult.pos = [1, 0] ∧
    ¬ (searchResultsWith goodTable.rows [0, 0] 2 [0, 1] [1, 0]).Pairwise
      (fun a b => b.similarity < a.similarity ∨
        (a.similarity = b.similarity ∧ a.pos < b.pos)) :=
  ⟨by decide, by decide, rfl, by decide⟩

/-- C1 (amended): for every built index and valid query, the returned
sequence is sorted non-strictly descending by similarity, for every pair
of sorting permutations that the two unstable library sort calls may
legitimately return; the relative order of records with tied similarity
scores is not guaranteed. -/
theorem c1_results_sorted_desc (rows : List RawRow) (sims : List ℚ) (n : ℕ)
    (p1 p2 : List ℕ) (h1 : IsArgsortOf sims p1)
    (h2 : IsArgsortOf ((p1.reverse.take n).map fun i => sims.getD i 0) p2) :
    (searchResultsWith rows sims n p1 p2).Pairwise
      fun a b => b.similarity ≤ a.similarity := by
  obtain ⟨hp2, hs2⟩ := h2
  unfold searchResultsWith
  rw [List.pairwise_map, List.pairwise_map]
  have hrev : p2.reverse.Pairwise (fun k k' =>
      ((p1.reverse.take n).map fun i => sims.getD i 0).getD k' 0 ≤
      ((p1.reverse.take n).map fun i => sims.getD i 0).getD k 0) :=
    List.pairwise_reverse.mpr hs2
  refine List.Pairwise.imp_of_mem ?_ hrev
  intro k k' hk hk' hle
  have hkb : k < (p1.reverse.take n).length := by
    have hmem := hp2.mem_iff.mp (List.mem_reverse.mp hk)
    rw [List.mem_range] at hmem
    simpa using hmem
  have hk'b : k' < (p1.reverse.take n).length := by
    have hmem := hp2.mem_iff.mp (List.mem_reverse.mp hk')
    rw [List.mem_range] at hmem
    simpa using hmem
  have egk : ((p1.reverse.take n).map fun i => sims.getD i 0).getD k 0 =
      (((p1.reverse.take n).map fun i =>
        (i, rows.getD i default, sims.getD i 0)).getD k default).2.2 := by
    rw [List.getD_eq_getElem _ _ (by simpa using hkb),
      List.getD_eq_getElem _ _ (by simpa using hkb),
      List.getElem_map, List.getElem_map]
  have egk' : ((p1.reverse.take n).map fun i => sims.getD i 0).getD k' 0 =
      (((p1.reverse.take n).map fun i =>
        (i, rows.getD i default, sims.getD i 0)).getD k' default).2.2 := by
    rw [List.getD_eq_getElem _ _ (by simpa using hk'b),
      List.getD_eq_getElem _ _ (by simpa using hk'b),
      List.getElem_map, List.getElem_map]
  show (((p1.reverse.take n).map fun i =>
      (i, rows.getD i default, sims.getD i 0)).getD k' default).2.2 ≤
    (((p1.reverse.take n).map fun i =>
      (i, rows.getD i default, sims.getD i 0)).getD k default).2.2
  rw [← egk, ← egk']
  exact hle

/-- Witness for C1 (amended) at a concrete choice of the two sorting
permutations allowed by the contract. -/
theorem c1_results_sorted_desc_witness :
    IsArgsortOf [3, 1] [1, 0] ∧
    (searchResultsWith goodTable.rows [3, 1] 2 [1, 0] [1, 0]).Pairwise
      (fun a b => b.similarity ≤ a.similarity) :=
  ⟨by decide, c1_results_sorted_desc goodTable.rows [3, 1] 2 [1, 0] [1, 0]
    (by decide) (by decide)⟩

/-- C2 (code bug): `load_movies` stores the raw frame into `df_movies`
before any validation, so after a successful 2-row build, a failed rebuild
from a source missing the `plot` column leaves a 1-row Corpus paired with
the stale 2-vector EmbeddingMatrix: the two disagree in length. -/
theorem c2_stale_after_failed_build :
    (load_movies initState (some goodTable) true encConst).2 = none ∧
    (load_movies (load_movies initState (some goodTable) true encConst).1
        (some badTable) true encConst).2 = some (.missingColumns ["plot"]) ∧
    ((load_movies (load_movies initState (some goodTable) true encConst).1
        (some badTable) true encConst).1.df_movies.getD []).length = 1 ∧
    ((load_movies (load_movies initState (some goodTable) true encConst).1
        (some badTable) true encConst).1.plot_embeddings.getD []).length = 2 :=
  ⟨rfl, rfl, rfl, rfl⟩

/-- C3: on a built index with an aligned matrix, a valid query with
positive integer `top_n` returns exactly `min top_n corpus_size` results,
with no error even when `top_n` exceeds the corpus size. -/
theorem c3_result_count (sim : List ℚ → List ℚ → ℚ)
    (enc : String → Option (List ℚ)) (st : SearchState)
    (rows : List RawRow) (embs : List (List ℚ)) (qv : List ℚ)
    (query : String) (n : ℕ)
    (hdf : st.df_movies = some rows) (hpe : st.plot_embeddings = some embs)
    (halign : embs.length = rows.length)
    (hq : strippedEmpty query = false) (henc : enc query = some qv)
    (hn : 0 < n) :
    ∃ res, search_movies sim enc st query (.pyInt (n : ℤ)) = (st, .ok res) ∧
      res.length = min n rows.length := by
  refine ⟨rankedResults sim qv rows embs n,
    search_movies_ok sim enc st rows embs qv query n hdf hpe hq henc hn, ?_⟩
  rw [rankedResults_length, halign]

/-- Witness for C3 with `top_n = 5` exceeding the corpus size 2: the
query silently clamps to all records. -/
theorem c3_result_count_witness :
    ∃ res, search_movies simDot encConst builtState "spy" (.pyInt 5) =
      (builtState, .ok res) ∧ res.length = min 5 goodTable.rows.length :=
  c3_result_count simDot encConst builtState goodTable.rows [[1], [1]] [1]
    "spy" 5 rfl rfl rfl rfl rfl (by decide)

/-- C4: the similarity kernel called by the code computes
`dot q v / (norm q * norm v)` with the division guarded: it evaluates to
`0` whenever either vector has zero magnitude, the denominator is never
zero (so the computation cannot fail numerically on a zero vector), and on
nonzero vectors it equals the cosine formula. -/
theorem c4_cosine_guard (q v : List ℚ) :
    (euclNorm q = 0 ∨ euclNorm v = 0 → cosine_similarity q v = 0) ∧
    normOr1 q * normOr1 v ≠ 0 ∧
    (euclNorm q ≠ 0 → euclNorm v ≠ 0 →
      cosine_similarity q v = ((dot q v : ℚ) : ℝ) / (euclNorm q * euclNorm v)) := by
  refine ⟨?_, mul_ne_zero (normOr1_ne_zero q) (normOr1_ne_zero v), ?_⟩
  · rintro (h | h)
    · have h0 : normSq q = 0 := (euclNorm_eq_zero_iff q).mp h
      have hd : dot q v = 0 := dot_eq_zero_of_normSq_eq_zero h0 v
      simp [cosine_similarity, hd]
    · have h0 : normSq v = 0 := (euclNorm_eq_zero_iff v).mp h
      have hd : dot q v = 0 := by
        rw [dot_comm]
        exact dot_eq_zero_of_normSq_eq_zero h0 q
      simp [cosine_similarity, hd]
  · intro hq hv
    have hq0 : ¬ normSq q = 0 := fun hh => hq ((euclNorm_eq_zero_iff q).mpr hh)
    have hv0 : ¬ normSq v = 0 := fun hh => hv ((euclNorm_eq_zero_iff v).mpr hh)
    simp [cosine_similarity, normOr1, hq0, hv0]

/-- Witness for C4 at the zero vector `[0]` against `[1]`. -/
theorem c4_cosine_guard_witness :
    euclNorm ([0] : List ℚ) = 0 ∧ cosine_similarity [0] [1] = 0 := by
  have h0 : euclNorm ([0] : List ℚ) = 0 := by
    simp [euclNorm, normSq, dot]
  exact ⟨h0, (c4_cosine_guard [0] [1]).1 (Or.inl h0)⟩

/-- C5: for a source with both required columns, cleaning drops exactly the
rows whose title or plot is null or whose plot strips to empty, keeps the
survivors in source order (a sublist), and a build whose cleaning leaves
zero rows fails with the empty-corpus error. -/
theorem c5_cleaning (st : SearchState) (t : Table) (mo : Bool)
    (enc : String → Option (List ℚ))
    (hcols : t.hasTitle = true ∧ t.hasPlot = true) :
    clean t.rows = t.rows.filter
      (fun r => !(r.title.isNone || r.plot.isNone ||
        strippedEmpty (r.plot.getD ""))) ∧
    (clean t.rows).Sublist t.rows ∧
    (clean t.rows = [] →
      load_movies st (some t) mo enc =
        ({ st with df_movies := some (clean t.rows) }, some .emptyCorpus)) := by
  refine ⟨?_, ?_, ?_⟩
  · unfold clean
    rw [List.filter_filter]
    apply List.filter_congr
    intro r _
    rcases r with ⟨title, plot⟩
    cases title <;> cases plot <;> simp
  · exact (List.filter_sublist _).trans (List.filter_sublist _)
  · intro hemp
    simp only [load_movies]
    rw [if_neg (not_not_intro hcols), if_pos hemp]

/-- Witness for C5 at a source whose two rows (null title; whitespace
plot) are both dropped, so the build fails with the empty-corpus error. -/
theorem c5_cleaning_witness :
    (clean blankTable.rows).Sublist blankTable.rows ∧
    load_movies initState (some blankTable) true encConst =
      ({ initState with df_movies := some (clean blankTable.rows) },
        some .emptyCorpus) :=
  ⟨(c5_cleaning initState blankTable true encConst (by decide)).2.1,
   (c5_cleaning initState blankTable true encConst (by decide)).2.2 rfl⟩

/-- C6: building from a reachable source lacking a required column fails
with the schema error naming exactly the missing columns among
`title` and `plot`; the searchable-text column is named `plot` in the
source (the spec calls it `text`). -/
theorem c6_schema (st : SearchState) (t : Table) (mo : Bool)
    (enc : String → Option (List ℚ))
    (h : ¬ (t.hasTitle = true ∧ t.hasPlot = true)) :
    (load_movies st (some t) mo enc).2 =
      some (.missingColumns (missingCols t)) ∧
    ("plot" ∈ missingCols t ↔ t.hasPlot = false) ∧
    ("title" ∈ missingCols t ↔ t.hasTitle = false) ∧
    ∀ c ∈ missingCols t, c = "title" ∨ c = "plot" := by
  refine ⟨?_, ?_, ?_, ?_⟩
  · simp only [load_movies]
    rw [if_pos h]
  · cases ht : t.hasTitle <;> cases hp : t.hasPlot <;> simp [missingCols, ht, hp]
  · cases ht : t.hasTitle <;> cases hp : t.hasPlot <;> simp [missingCols, ht, hp]
  · intro c hc
    cases ht : t.hasTitle <;> cases hp : t.hasPlot <;>
      rw [missingCols, ht, hp] at hc <;> simp at hc <;> simp [hc]

/-- Witness for C6 at the concrete source missing the `plot` column. -/
theorem c6_schema_witness :
    (load_movies initState (some badTable) true encConst).2 =
      some (.missingColumns (missingCols badTable)) ∧
    "plot" ∈ missingCols badTable :=
  ⟨(c6_schema initState badTable true encConst (by decide)).1,
   (c6_schema initState badTable true encConst (by decide)).2.1.mpr rfl⟩

/-- C7 counterexample: the three rejection cases are raised, but all three
carry the same Python exception class `ValueError`, so they are not
distinct error kinds a caller could branch on. -/
theorem c7_distinct_kinds_counterexample :
    (search_movies (fun _ _ => 0) (fun _ => some [1]) initState " "
      (.pyInt 3)).2 = .error .invalidQuery ∧
    (search_movies (fun _ _ => 0) (fun _ => some [1]) initState "film"
      (.pyInt 0)).2 = .error .invalidTopN ∧
    (search_movies (fun _ _ => 0) (fun _ => some [1]) initState "film"
      (.pyInt 3)).2 = .error .notLoaded ∧
    pyClass .invalidQuery = pyClass .invalidTopN ∧
    pyClass .invalidTopN = pyClass .notLoaded :=
  ⟨rfl, rfl, rfl, rfl, rfl⟩

/-- C7 (amended): the three rejections happen before any embedding work
(the result does not depend on the encoder `enc`, which is universally
quantified and never consulted), each produces its specific failure, and
the three failures share the Python class `ValueError`, being
distinguishable only by their message strings. -/
theorem c7_validation (sim : List ℚ → List ℚ → ℚ)
    (enc : String → Option (List ℚ)) (st : SearchState)
    (query : String) (top_n : PyVal) :
    (strippedEmpty query = true →
      (search_movies sim enc st query top_n).2 = .error .invalidQuery) ∧
    (strippedEmpty query = false →
      (¬ isInstInt top_n = true ∨ pyToInt top_n ≤ 0) →
      (search_movies sim enc st query top_n).2 = .error .invalidTopN) ∧
    (strippedEmpty query = false → isInstInt top_n = true →
      0 < pyToInt top_n →
      (st.df_movies = none ∨ st.plot_embeddings = none) →
      (search_movies sim enc st query top_n).2 = .error .notLoaded) ∧
    pyClass .invalidQuery = .valueError ∧
    pyClass .invalidTopN = .valueError ∧
    pyClass .notLoaded = .valueError ∧
    msgOf .invalidQuery ≠ msgOf .invalidTopN ∧
    msgOf .invalidQuery ≠ msgOf .notLoaded ∧
    msgOf .invalidTopN ≠ msgOf .notLoaded := by
  refine ⟨?_, ?_, ?_, rfl, rfl, rfl, by decide, by decide, by decide⟩
  · intro hq
    unfold search_movies
    rw [if_pos hq]
  · intro hq hn
    unfold search_movies
    rw [if_neg (by simp [hq]), if_pos hn]
  · intro hq hni hnp hnone
    unfold search_movies
    rw [if_neg (by simp [hq]), if_neg (by
      rintro (h | h)
      · exact h hni
      · exact absurd hnp (not_lt.mpr h))]
    rcases hdf : st.df_movies with _ | rows <;>
      rcases hpe : st.plot_embeddings with _ | embs
    · rfl
    · rfl
    · rfl
    · rcases hnone with h | h
      · rw [hdf] at h
        exact absurd h (by simp)
      · rw [hpe] at h
        exact absurd h (by simp)

/-- Witness for C7 (amended): even with an encoder that always fails, a
blank query is rejected with the invalid-query failure. -/
theorem c7_validation_witness :
    (search_movies (fun _ _ => 0) (fun _ => none) initState " "
      (.pyInt 1)).2 = .error .invalidQuery :=
  (c7_validation (fun _ _ => 0) (fun _ => none) initState " " (.pyInt 1)).1 rfl

/-- C8: after every successful build, the stored matrix has exactly one
vector per stored record, in corpus order: the vector at position `i` is
the encoding of the plot of the record at position `i`. -/
theorem c8_alignment (st : SearchState) (src : Option Table) (mo : Bool)
    (enc : String → Option (List ℚ)) (st' : SearchState)
    (h : load_movies st src mo enc = (st', none)) :
    ∃ rows embs, st'.df_movies = some rows ∧
      st'.plot_embeddings = some embs ∧
      embs.length = rows.length ∧
      ∀ i (hi : i < rows.length) (hi' : i < embs.length),
        enc (rows[i].plot.getD "") = some embs[i] := by
  obtain ⟨t, embs, -, hdf, hpe, hb⟩ := load_movies_ok st src mo enc st' h
  refine ⟨clean t.rows, embs, hdf, hpe, ?_, ?_⟩
  · have hl := encodeBatch_length hb
    simpa using hl
  · intro i hi hi'
    have hmap : i < ((clean t.rows).map fun r => r.plot.getD "").length := by
      simpa using hi
    have hg := encodeBatch_getElem hb i hmap hi'
    rw [List.getElem_map] at hg
    exact hg

/-- Witness for C8 at a concrete successful build. -/
theorem c8_alignment_witness :
    ∃ rows embs,
      (load_movies initState (some goodTable) true encConst).1.df_movies =
        some rows ∧
      (load_movies initState (some goodTable) true encConst).1.plot_embeddings =
        some embs ∧
      embs.length = rows.length ∧
      ∀ i (hi : i < rows.length) (hi' : i < embs.length),
        encConst (rows[i].plot.getD "") = some embs[i] :=
  c8_alignment initState (some goodTable) true encConst
    (load_movies initState (some goodTable) true encConst).1 rfl

/-- C9: `search_movies` never mutates the searcher state (so the Corpus
and EmbeddingMatrix are untouched), and a second call with the same query
and `top_n` on the state left by the first call returns the identical
result, for every state, query, `top_n`, score kernel and encoder. -/
theorem c9_pure_idempotent (sim : List ℚ → List ℚ → ℚ)
    (enc : String → Option (List ℚ)) (st : SearchState)
    (query : String) (top_n : PyVal) :
    (search_movies sim enc st query top_n).1 = st ∧
    (search_movies sim enc (search_movies sim enc st query top_n).1
        query top_n).2 = (search_movies sim enc st query top_n).2 := by
  have hst : (search_movies sim enc st query top_n).1 = st := by
    unfold search_movies
    split
    · rfl
    · split
      · rfl
      · split
        · split <;> rfl
        · rfl
  exact ⟨hst, by rw [hst]⟩

/-- C10: the Python boolean `True` passes the `isinstance(top_n, int)`
check (bool is a subclass of int) with value 1, so `query(q, True)`
returns `min 1 corpus_size` results instead of raising the invalid-top-n
error. -/
theorem c10_bool_top_n (sim : List ℚ → List ℚ → ℚ)
    (enc : String → Option (List ℚ)) (st : SearchState)
    (rows : List RawRow) (embs : List (List ℚ)) (qv : List ℚ)
    (query : String)
    (hdf : st.df_movies = some rows) (hpe : st.plot_embeddings = some embs)
    (halign : embs.length = rows.length)
    (hq : strippedEmpty query = false) (henc : enc query = some qv) :
    ∃ res, search_movies sim enc st query (.pyBool true) = (st, .ok res) ∧
      res.length = min 1 rows.length := by
  have heq : search_movies sim enc st query (.pyBool true) =
      search_movies sim enc st query (.pyInt ((1 : ℕ) : ℤ)) := rfl
  rw [heq,
    search_movies_ok sim enc st rows embs qv query 1 hdf hpe hq henc
      (by decide)]
  exact ⟨rankedResults sim qv rows embs 1, rfl,
    by rw [rankedResults_length, halign]⟩

/-- Witness for C10 at a concrete built index: `top_n = True` yields one
result. -/
theorem c10_bool_top_n_witness :
    ∃ res, search_movies simDot encConst builtState "spy" (.pyBool true) =
      (builtState, .ok res) ∧ res.length = min 1 goodTable.rows.length :=
  c10_bool_top_n simDot encConst builtState goodTable.rows [[1], [1]] [1]
    "spy" rfl rfl rfl rfl rfl
